import Mathlib

/-!
Shallow embedding of the Disaster-Response coordination backend
(Hmtgit7/Disaster-Response), covering the pieces the verified claims
touch: the cache service, the Bluesky keyword priority classifier, the
Gemini fallback paths, the real-time aggregation service, and the
disaster/resource route handlers with their in-memory fallback store.

Conventions of the embedding:
* JavaScript timestamps (Date.now, ISO strings) are Nat milliseconds;
  ISO-string comparison on equal-format strings agrees with numeric
  comparison, so the `lt` filters on `expires_at` keep their meaning.
* JavaScript string falsiness (undefined or empty string) is modelled by
  `Option String` together with `jsTruthy`; `x || y` on strings is `jsOr`.
* Asynchronous calls that can reject are modelled by `Except Unit`
  or by the `Settled` outcome type (for Promise.allSettled).
* The hosted database client is modelled by `Db`: `Db.up rows` is a
  reachable database holding `rows`, `Db.down` is an unreachable client
  whose calls fail.
-/

set_option autoImplicit false

universe u

/-- JavaScript truthiness of a possibly-absent string: `undefined` and
the empty string are falsy, everything else truthy. -/
def jsTruthy : Option String → Bool
  | none => false
  | some s => !(s == "")

/-- JavaScript `x || dflt` on a possibly-absent string. -/
def jsOr (x : Option String) (dflt : String) : String :=
  match x with
  | none => dflt
  | some s => if s == "" then dflt else s

/-- Lower-casing of a string, as String.prototype.toLowerCase on the
ASCII content the keyword classifiers look at. -/
def toLowerStr (s : String) : String :=
  String.mk (s.toList.map Char.toLower)

/-- The whitespace test of String.prototype.trim. -/
def isWhitespaceChar (c : Char) : Bool :=
  c == ' ' || c == '\t' || c == '\n' || c == '\r'

/-- String.prototype.trim: strip whitespace from both ends. -/
def trimStr (s : String) : String :=
  String.mk (((s.toList.dropWhile isWhitespaceChar).reverse.dropWhile
    isWhitespaceChar).reverse)

/-- Does the list start with the given pattern (character-wise)? -/
def startsWithList : List Char → List Char → Bool
  | _, [] => true
  | [], _ :: _ => false
  | c :: cs, d :: ds => c == d && startsWithList cs ds

/-- Is `sub` a contiguous sublist of `l`?  Models
String.prototype.includes. -/
def hasSubList : List Char → List Char → Bool
  | [], sub => sub.isEmpty
  | c :: cs, sub => startsWithList (c :: cs) sub || hasSubList cs sub

/-- String.prototype.includes, via the character lists. -/
def strIncludes (s sub : String) : Bool :=
  hasSubList s.toList sub.toList

/-! ## Cache service (src/backend/src/services/cacheService.ts)

The `cache` table of the hosted database: rows of key, value and
expiry timestamp.  The store is an association list; `key` is the
primary key (upsert overwrites; the single-row select by key finds
the row with that key). -/

/-- One row of the `cache` table. -/
structure CacheRow (V : Type u) where
  key : String
  value : V
  expires_at : Nat
deriving Repr, DecidableEq

/-- The `cache` table. -/
abbrev CacheStore (V : Type u) := List (CacheRow V)

/-- The single-row select by key: the row holding the key, if any. -/
def cacheFind {V : Type u} (store : CacheStore V) (key : String) : Option (CacheRow V) :=
  store.find? (fun r => r.key == key)

/-- CacheService.delete: delete the rows holding the key. -/
def CacheService.del {V : Type u} (store : CacheStore V) (key : String) : CacheStore V :=
  store.filter (fun r => !(r.key == key))

/-- CacheService.get: select the row by key; a missing row is a miss;
an expired row (expires_at strictly in the past) is lazily deleted and
reported as a miss; otherwise the stored value is returned.  Returns
the value outcome together with the store after the call. -/
def CacheService.get {V : Type u} (store : CacheStore V) (now : Nat) (key : String) :
    Option V × CacheStore V :=
  match cacheFind store key with
  | none => (none, store)
  | some row =>
    if row.expires_at < now then
      (none, CacheService.del store key)
    else
      (some row.value, store)

/-- CacheService.set: upsert the row `(key, value, now + ttl seconds)`. -/
def CacheService.set {V : Type u} (store : CacheStore V) (now : Nat) (key : String)
    (value : V) (ttlSeconds : Nat) : CacheStore V :=
  let row : CacheRow V := ⟨key, value, now + ttlSeconds * 1000⟩
  if store.any (fun r => r.key == key) then
    store.map (fun r => if r.key == key then row else r)
  else
    store ++ [row]

/-- CacheService.clearExpired: bulk delete of the rows whose
expires_at is strictly below now. -/
def CacheService.clearExpired {V : Type u} (store : CacheStore V) (now : Nat) : CacheStore V :=
  store.filter (fun r => !(decide (r.expires_at < now)))

/-! ## Priority labels and the Bluesky keyword classifier
(src/backend/src/services/blueskyService.ts) -/

/-- The four social-media priority labels. -/
inductive Priority
  | low
  | medium
  | high
  | urgent
deriving Repr, DecidableEq

/-- The urgent-keyword test of BlueskyService.classifyPriority. -/
def urgentKeyword (lowerContent : String) : Bool :=
  strIncludes lowerContent "urgent" || strIncludes lowerContent "sos" ||
    strIncludes lowerContent "emergency"

/-- The high-keyword test of BlueskyService.classifyPriority. -/
def highKeyword (lowerContent : String) : Bool :=
  strIncludes lowerContent "critical" || strIncludes lowerContent "severe" ||
    strIncludes lowerContent "danger"

/-- The medium-keyword test of BlueskyService.classifyPriority. -/
def mediumKeyword (lowerContent : String) : Bool :=
  strIncludes lowerContent "warning" || strIncludes lowerContent "alert" ||
    strIncludes lowerContent "caution"

/-- BlueskyService.classifyPriority: keyword cascade over the
lower-cased content, defaulting to low. -/
def BlueskyService.classifyPriority (content : String) : Priority :=
  let lowerContent := toLowerStr content
  if urgentKeyword lowerContent then .urgent
  else if highKeyword lowerContent then .high
  else if mediumKeyword lowerContent then .medium
  else .low

/-! ## Gemini AI service (services/geminiService.ts)

The upstream generative call either rejects or responds with free
text; `UpstreamOutcome` captures the two cases.  JSON.parse of the
matched JSON block is an abstract parameter (`parseJson`), since the
claims only depend on whether it succeeds. -/

/-- Outcome of an awaited upstream call: rejection (any thrown error,
including a failed image fetch) or a textual response. -/
inductive UpstreamOutcome
  | throws
  | responds (text : String)

/-- The image-verification record (types/index.ts ImageVerificationResult). -/
structure ImageVerificationResult where
  is_authentic : Bool
  confidence : Nat
  analysis : String
  detected_manipulations : List String
deriving Repr, DecidableEq

/-- A geocoding record (types/index.ts GeocodingResult); coordinates as
integers, which is all the claims need. -/
structure GeocodingResult where
  location_name : String
  lat : Int
  lng : Int
  formatted_address : String
deriving Repr, DecidableEq

/-- The regex match `/\x7b[\s\S]*\x7d/` of GeminiService.verifyImage:
the block from the first opening brace to the last closing brace, when
the closing brace comes after the opening one. -/
def jsonMatch (s : String) : Option String :=
  let cs := s.toList
  match cs.findIdx? (fun c => c == '\x7b') with
  | none => none
  | some i =>
    match cs.reverse.findIdx? (fun c => c == '\x7d') with
    | none => none
    | some k =>
      let j := cs.length - 1 - k
      if i ≤ j then some (String.mk ((cs.drop i).take (j - i + 1))) else none

/-- GeminiService.verifyImage, as a function of the cache lookup, the
upstream outcome and the JSON parser.  A cache hit returns the cached
record; a thrown error returns the fail-open default with confidence
30; a response whose JSON block fails JSON.parse returns the fail-open
default with confidence 50; a response with no JSON block goes through
the keyword fallback parsing. -/
def GeminiService.verifyImage (parseJson : String → Option ImageVerificationResult)
    (cached : Option ImageVerificationResult) (o : UpstreamOutcome) :
    ImageVerificationResult :=
  match cached with
  | some r => r
  | none =>
    match o with
    | .throws =>
      { is_authentic := true
        confidence := 30
        analysis := "Unable to verify image due to technical error"
        detected_manipulations := [] }
    | .responds analysisText =>
      match jsonMatch analysisText with
      | some block =>
        match parseJson block with
        | some r => r
        | none =>
          { is_authentic := true
            confidence := 50
            analysis := analysisText
            detected_manipulations := [] }
      | none =>
        let lower := toLowerStr analysisText
        { is_authentic := !(strIncludes lower "fake") && !(strIncludes lower "manipulated")
          confidence :=
            if strIncludes analysisText "high" then 80
            else if strIncludes analysisText "medium" then 60 else 40
          analysis := analysisText
          detected_manipulations :=
            if strIncludes lower "manipulation" then ["Potential editing detected"] else [] }

/-- The validPriorities membership test of
GeminiService.classifySocialMediaPriority: the trimmed lower-cased
response text as a priority label, if it is one of the four. -/
def parseValidPriority (s : String) : Option Priority :=
  if s == "low" then some .low
  else if s == "medium" then some .medium
  else if s == "high" then some .high
  else if s == "urgent" then some .urgent
  else none

/-- GeminiService.classifySocialMediaPriority, as a function of the
cache lookup and the upstream outcome: a thrown error or a response
outside the four labels yields medium. -/
def GeminiService.classifySocialMediaPriority (cached : Option Priority)
    (o : UpstreamOutcome) : Priority :=
  match cached with
  | some p => p
  | none =>
    match o with
    | .throws => .medium
    | .responds text =>
      match parseValidPriority (toLowerStr (trimStr text)) with
      | some p => p
      | none => .medium

/-- GeminiService.extractLocation, as a function of the cache lookup
and the upstream outcome.  A thrown error is rethrown; an empty
trimmed response, or one mentioning null or no location, yields no
result; otherwise the trimmed text is the extracted location name. -/
def GeminiService.extractLocation (cached : Option GeocodingResult)
    (o : UpstreamOutcome) : Except Unit (Option GeocodingResult) :=
  match cached with
  | some r => .ok (some r)
  | none =>
    match o with
    | .throws => .error ()
    | .responds text =>
      let locationName := trimStr text
      if locationName == "" || strIncludes (toLowerStr locationName) "null" ||
          strIncludes (toLowerStr locationName) "no location" then
        .ok none
      else
        .ok (some ⟨locationName, 0, 0, locationName⟩)

/-! ## Core records (src/backend/src/types/index.ts)

Coordinates are integer pairs and timestamps are Nat milliseconds;
the `location` column may be null in the database, hence
`Option Coords`. -/

/-- A latitude/longitude pair. -/
structure Coords where
  lat : Int
  lng : Int
deriving Repr, DecidableEq

/-- One audit-trail entry of a disaster; the free-form `details`
payload is reduced to an optional tag. -/
structure AuditEntry where
  action : String
  user_id : String
  timestamp : Nat
  details : Option String
deriving Repr, DecidableEq

/-- A disaster record. -/
structure Disaster where
  id : String
  title : String
  location_name : String
  location : Option Coords
  description : String
  tags : List String
  owner_id : String
  created_at : Nat
  updated_at : Nat
  audit_trail : List AuditEntry
deriving Repr, DecidableEq

/-- A social-media post; `disaster_id` is optional in the source type. -/
structure SocialMediaPost where
  id : String
  platform : String
  user : String
  content : String
  timestamp : Nat
  disaster_id : Option String
  priority : Priority
deriving Repr, DecidableEq

/-- A resource record; the source field `type` is `rtype` here since
type is a Lean keyword. -/
structure Resource where
  id : String
  disaster_id : String
  name : String
  location_name : String
  location : Option Coords
  rtype : String
  capacity : Option Nat
  available : Option Bool
  created_at : Nat
deriving Repr, DecidableEq

/-- A report record. -/
structure Report where
  id : String
  disaster_id : String
  user_id : String
  content : String
  image_url : Option String
  verification_status : String
  created_at : Nat
deriving Repr, DecidableEq

/-- A weather alert as mapped from the National Weather Service feed
in getRealTimeWeather; `type` is `wtype`. -/
structure WeatherAlert where
  id : String
  wtype : String
  severity : String
  area : String
  description : String
  effective : Nat
  expires : Nat
  coordinates : List Coords
deriving Repr, DecidableEq

/-- A FEMA alert as mapped in getRealTimeEmergencyAlerts; `type` is
`etype`. -/
structure EmergencyAlert where
  id : Nat
  etype : String
  state : String
  county : String
  declarationDate : Nat
  title : String
  description : String
deriving Repr, DecidableEq

/-! ## Real-time data service (services/realTimeDataService.ts) -/

/-- The outcome of one promise in Promise.allSettled. -/
inductive Settled (α : Type)
  | fulfilled (value : α)
  | rejected

/-- The value of a settled list fetch, with rejection contributing the
empty list, as in the ternaries of getRealTimeDisasterData. -/
def Settled.valueOrNil {α : Type} : Settled (List α) → List α
  | .fulfilled v => v
  | .rejected => []

/-- The aggregate record returned by getRealTimeDisasterData: exactly
the six list fields. -/
structure RealTimeData where
  disasters : List Disaster
  socialMedia : List SocialMediaPost
  weather : List WeatherAlert
  emergencyAlerts : List EmergencyAlert
  resources : List Resource
  reports : List Report
deriving Repr, DecidableEq

/-- RealTimeDataService.getRealTimeDisasterData, as a function of the
Promise.allSettled outcomes of the six per-source fetches.  The
function is total: it never throws, whatever the six outcomes. -/
def RealTimeDataService.getRealTimeDisasterData
    (disasters : Settled (List Disaster)) (socialMedia : Settled (List SocialMediaPost))
    (weather : Settled (List WeatherAlert)) (emergencyAlerts : Settled (List EmergencyAlert))
    (resources : Settled (List Resource)) (reports : Settled (List Report)) :
    RealTimeData :=
  { disasters := match disasters with | .fulfilled v => v | .rejected => []
    socialMedia := match socialMedia with | .fulfilled v => v | .rejected => []
    weather := match weather with | .fulfilled v => v | .rejected => []
    emergencyAlerts := match emergencyAlerts with | .fulfilled v => v | .rejected => []
    resources := match resources with | .fulfilled v => v | .rejected => []
    reports := match reports with | .fulfilled v => v | .rejected => [] }

/-- The cache-key suffix: the disaster id when truthy, else the
literal all. -/
def keyOrAll (disasterId : Option String) : String :=
  jsOr disasterId "all"

/-- RealTimeDataService.getRealTimeDisasters, as a function of the
optional requested id, the clock, the cache table and the outcomes of
the three sub-source fetches (Bluesky, emergency services, weather
alerts; each has its own try/catch contributing nothing on failure).
A truthy cached value is returned as is; otherwise the concatenation
is filtered by the requested id when one is given (truthy) and the
result is cached for 120 seconds.  Returns the result and the cache
after the call. -/
def RealTimeDataService.getRealTimeDisasters (disasterId : Option String) (now : Nat)
    (cache : CacheStore (List Disaster))
    (bluesky emergency weather : Settled (List Disaster)) :
    List Disaster × CacheStore (List Disaster) :=
  let cacheKey := "realtime_disasters:" ++ keyOrAll disasterId
  match CacheService.get cache now cacheKey with
  | (some cached, cache1) => (cached, cache1)
  | (none, cache1) =>
    let disasters := bluesky.valueOrNil ++ emergency.valueOrNil ++ weather.valueOrNil
    let filteredDisasters :=
      match disasterId with
      | some s => if s == "" then disasters else disasters.filter (fun d => d.id == s)
      | none => disasters
    (filteredDisasters, CacheService.set cache1 now cacheKey filteredDisasters 120)

/-- RealTimeDataService.getRealTimeSocialMedia: same shape over the
two post sources (disaster search, official updates), filtering on
`post.disaster_id === disasterId`, cached for 60 seconds. -/
def RealTimeDataService.getRealTimeSocialMedia (disasterId : Option String) (now : Nat)
    (cache : CacheStore (List SocialMediaPost))
    (blueskyPosts officialPosts : Settled (List SocialMediaPost)) :
    List SocialMediaPost × CacheStore (List SocialMediaPost) :=
  let cacheKey := "realtime_social:" ++ keyOrAll disasterId
  match CacheService.get cache now cacheKey with
  | (some cached, cache1) => (cached, cache1)
  | (none, cache1) =>
    let posts := blueskyPosts.valueOrNil ++ officialPosts.valueOrNil
    let filteredPosts :=
      match disasterId with
      | some s => if s == "" then posts else posts.filter (fun p => p.disaster_id == some s)
      | none => posts
    (filteredPosts, CacheService.set cache1 now cacheKey filteredPosts 60)

/-- One feature of the Red Cross shelter feed, with the attributes
getRealTimeResources reads. -/
structure RedCrossFeature where
  objectid : Nat
  shelterName : Option String
  address : Option String
  geomY : Option Int
  geomX : Option Int
  capacity : Option Nat
deriving Repr, DecidableEq

/-- The per-feature mapping of getRealTimeResources: note that
disaster_id falls back to the literal general when the requested id is
falsy, and a zero Capacity becomes undefined. -/
def redCrossToResource (disasterId : Option String) (now : Nat) (f : RedCrossFeature) :
    Resource :=
  { id := "redcross-" ++ toString f.objectid
    disaster_id := jsOr disasterId "general"
    name := jsOr f.shelterName "Red Cross Shelter"
    location_name := jsOr f.address "Unknown Location"
    location := some ⟨f.geomY.getD 0, f.geomX.getD 0⟩
    rtype := "shelter"
    capacity := f.capacity.bind (fun c => if c == 0 then none else some c)
    available := some true
    created_at := now }

/-- RealTimeDataService.getRealTimeResources: the Red Cross fetch
mapped through `redCrossToResource` (nothing on failure), cached for
900 seconds.  No filter step: the requested id is baked into each
mapped entry. -/
def RealTimeDataService.getRealTimeResources (disasterId : Option String) (now : Nat)
    (cache : CacheStore (List Resource))
    (redCross : Settled (List RedCrossFeature)) :
    List Resource × CacheStore (List Resource) :=
  let cacheKey := "realtime_resources:" ++ keyOrAll disasterId
  match CacheService.get cache now cacheKey with
  | (some cached, cache1) => (cached, cache1)
  | (none, cache1) =>
    let resources :=
      match redCross with
      | .fulfilled fs => fs.map (redCrossToResource disasterId now)
      | .rejected => []
    (resources, CacheService.set cache1 now cacheKey resources 900)

/-! ## Cache well-formedness for the real-time keys

The service trusts cached values (`return cached as ...`): the
correlation properties therefore need the cache rows under the
real-time key prefixes to be the filtered lists previously stored for
the id in the key.  The suffix `all` is exempt: it holds the
unfiltered list (and, for resources, entries tagged `general`). -/

/-- Rows under `realtime_disasters:` hold disasters of the keyed id. -/
def disastersCacheInv (cache : CacheStore (List Disaster)) : Prop :=
  ∀ row ∈ cache, ∀ s : String, row.key = "realtime_disasters:" ++ s → s ≠ "all" →
    ∀ x ∈ row.value, x.id = s

/-- Rows under `realtime_social:` hold posts of the keyed id. -/
def socialCacheInv (cache : CacheStore (List SocialMediaPost)) : Prop :=
  ∀ row ∈ cache, ∀ s : String, row.key = "realtime_social:" ++ s → s ≠ "all" →
    ∀ p ∈ row.value, p.disaster_id = some s

/-- Rows under `realtime_resources:` hold resources of the keyed id. -/
def resourcesCacheInv (cache : CacheStore (List Resource)) : Prop :=
  ∀ row ∈ cache, ∀ s : String, row.key = "realtime_resources:" ++ s → s ≠ "all" →
    ∀ r ∈ row.value, r.disaster_id = s

/-- A concrete disaster, as the Bluesky mapping of
getDisastersFromBluesky would build it. -/
def demoDisaster : Disaster :=
  { id := "bluesky-99"
    title := "Flood Emergency"
    location_name := "Unknown Location"
    location := some ⟨0, 0⟩
    description := "flood downtown"
    tags := ["flood"]
    owner_id := "user.bsky.social"
    created_at := 0
    updated_at := 0
    audit_trail := [] }

/-! ## Route layer (routes/disasters.ts in src/unnamed/part_000,
routes/resources.ts, services/mockDataService.ts in src/unnamed/part_004)

`Db σ` models the hosted database client: `up rows` answers queries
from `rows`, `down` makes every awaited call fail (the supabase client
reports unreachability through the `error` field of its result, which
the handlers turn into thrown errors where they check it). -/

/-- The hosted database client holding a table of type σ. -/
inductive Db (σ : Type)
  | up (rows : σ)
  | down

/-- The response envelope of a route handler: HTTP status plus the
JSON body fields used by the claims. -/
structure RouteResponse (α : Type) where
  status : Nat
  success : Bool
  data : Option α
  error : Option String
  message : Option String
deriving Repr, DecidableEq

/-- The pagination block of list endpoints. -/
structure Pagination where
  page : Nat
  limit : Nat
  total : Nat
  totalPages : Nat
deriving Repr, DecidableEq

/-- A list response with its pagination block. -/
structure ListResponse (α : Type) where
  status : Nat
  success : Bool
  data : List α
  pagination : Option Pagination
  error : Option String
deriving Repr, DecidableEq

/-- The inclusive range slice of the database path and the mock
slice: drop the offset of the given page, take the limit. -/
def paginate {α : Type} (l : List α) (page limit : Nat) : List α :=
  (l.drop ((page - 1) * limit)).take limit

/-- Math.ceil of total over limit. -/
def ceilDiv (total limit : Nat) : Nat :=
  (total + limit - 1) / limit

/-- Insertion of a row into a list sorted by descending creation time. -/
def insertByCreatedDesc (created : Disaster → Nat) : Disaster → List Disaster → List Disaster
  | d, [] => [d]
  | d, x :: xs =>
    if created x ≤ created d then d :: x :: xs else x :: insertByCreatedDesc created d xs

/-- The descending created_at ordering applied to disasters. -/
def sortByCreatedDesc (l : List Disaster) : List Disaster :=
  l.foldr (insertByCreatedDesc (fun d => d.created_at)) []

/-- Insertion of a resource into a list sorted by descending creation
time. -/
def insertResByCreatedDesc : Resource → List Resource → List Resource
  | r, [] => [r]
  | r, x :: xs =>
    if x.created_at ≤ r.created_at then r :: x :: xs else x :: insertResByCreatedDesc r xs

/-- The descending created_at ordering applied to resources. -/
def sortResByCreatedDesc (l : List Resource) : List Resource :=
  l.foldr insertResByCreatedDesc []

/-- MockDataService.createDisaster: append with generated id
`disaster-(Date.now())` and the current timestamps.  Returns the new
record and the grown fixture store. -/
def MockDataService.createDisaster (store : List Disaster) (now : Nat)
    (title location_name : String) (location : Coords) (description : String)
    (tags : List String) (owner_id : String) (audit_trail : List AuditEntry) :
    Disaster × List Disaster :=
  let newDisaster : Disaster :=
    { id := "disaster-" ++ toString now
      title := title
      location_name := location_name
      location := some location
      description := description
      tags := tags
      owner_id := owner_id
      created_at := now
      updated_at := now
      audit_trail := audit_trail }
  (newDisaster, store ++ [newDisaster])

/-- MockDataService.getDisasters: slice of the fixture list plus its
total length. -/
def MockDataService.getDisasters (store : List Disaster) (page limit : Nat) :
    List Disaster × Nat :=
  (paginate store page limit, store.length)

/-- MockDataService.getResources: the fixture list, filtered by the
disaster id when one is passed, sliced, plus the filtered total. -/
def MockDataService.getResources (store : List Resource) (page limit : Nat)
    (disaster_id : Option String) : List Resource × Nat :=
  let filtered :=
    match disaster_id with
    | some s => if s == "" then store else store.filter (fun r => r.disaster_id == s)
    | none => store
  (paginate filtered page limit, filtered.length)

/-- POST /api/disasters (routes/disasters.ts).  Inputs: the request
body fields, the x-user-id header, the outcome of
GeminiService.extractLocation on the description, the geocoder result
(geocodingService.geocode catches everything and returns null, so it
never throws), the database client, the id the database would assign,
the mock fixture store and the clock.  Returns the response and both
stores after the call. -/
def Routes.postDisaster
    (title location_name description : Option String) (tags : Option (List String))
    (userHeader : Option String)
    (extractOutcome : Except Unit (Option GeocodingResult))
    (geocodeResult : Option Coords)
    (db : Db (List Disaster)) (dbNewId : String)
    (mock : List Disaster) (now : Nat) :
    RouteResponse Disaster × Db (List Disaster) × List Disaster :=
  if !(jsTruthy title) || !(jsTruthy description) then
    ({ status := 400, success := false, data := none,
       error := some "Title and description are required", message := none }, db, mock)
  else
    let owner_id := jsOr userHeader "anonymous"
    let extractStep : Except Unit (Option String) :=
      if jsTruthy location_name then .ok location_name
      else
        match extractOutcome with
        | .error _ => .error ()
        | .ok (some g) => .ok (some g.location_name)
        | .ok none => .ok location_name
    match extractStep with
    | .error _ =>
      ({ status := 500, success := false, data := none,
         error := some "Internal server error", message := none }, db, mock)
    | .ok finalLocationName =>
      let location : Option Coords :=
        if jsTruthy finalLocationName then geocodeResult else none
      let auditEntry : AuditEntry := ⟨"create", owner_id, now, none⟩
      match db with
      | .up rows =>
        let inserted : Disaster :=
          { id := dbNewId
            title := jsOr title ""
            location_name := jsOr finalLocationName "Unknown Location"
            location := location
            description := jsOr description ""
            tags := tags.getD []
            owner_id := owner_id
            created_at := now
            updated_at := now
            audit_trail := [auditEntry] }
        ({ status := 201, success := true, data := some inserted,
           error := none, message := some "Disaster created successfully" },
         .up (rows ++ [inserted]), mock)
      | .down =>
        let created := MockDataService.createDisaster mock now (jsOr title "")
          (jsOr finalLocationName "Unknown Location") (location.getD ⟨0, 0⟩)
          (jsOr description "") (tags.getD []) owner_id [auditEntry]
        ({ status := 201, success := true, data := some created.1,
           error := none, message := some "Disaster created successfully (mock mode)" },
         .down, created.2)

/-- GET /api/disasters (routes/disasters.ts).  The ilike text matcher
and the PostGIS st_dwithin predicate are abstract parameters standing
for the database engine operators.  A database failure falls back to
MockDataService.getDisasters. -/
def Routes.getDisastersList
    (page limit : Nat) (tag search owner_id : Option String)
    (lat lng : Option Int) (radius : Nat)
    (ilike : String → String → Bool)
    (withinMeters : Coords → Coords → Nat → Bool)
    (db : Db (List Disaster)) (mock : List Disaster) :
    ListResponse Disaster :=
  match db with
  | .up rows =>
    let tagF : Disaster → Bool := fun d =>
      match tag with
      | some t => if t == "" then true else d.tags.contains t
      | none => true
    let searchF : Disaster → Bool := fun d =>
      match search with
      | some s =>
        if s == "" then true
        else ilike d.title s || ilike d.description s || ilike d.location_name s
      | none => true
    let ownerF : Disaster → Bool := fun d =>
      match owner_id with
      | some o => if o == "" then true else d.owner_id == o
      | none => true
    let geoF : Disaster → Bool := fun d =>
      match lat, lng with
      | some la, some ln =>
        match d.location with
        | some p => withinMeters p ⟨la, ln⟩ radius
        | none => false
      | _, _ => true
    let filtered := rows.filter (fun d => tagF d && searchF d && ownerF d && geoF d)
    { status := 200, success := true
      data := paginate (sortByCreatedDesc filtered) page limit
      pagination := some ⟨page, limit, filtered.length, ceilDiv filtered.length limit⟩
      error := none }
  | .down =>
    let result := MockDataService.getDisasters mock page limit
    { status := 200, success := true, data := result.1
      pagination := some ⟨page, limit, result.2, ceilDiv result.2 limit⟩
      error := none }

/-- The body of PUT /api/disasters/:id. -/
structure UpdateReq where
  title : Option String
  description : Option String
  location_name : Option String
  tags : Option (List String)
deriving Repr, DecidableEq

/-- PUT /api/disasters/:id (routes/disasters.ts).  The existence check
runs directly against the database client with no fallback: an
unreachable client surfaces as a fetch error and the handler answers
404 Disaster not found; the mock store is never consulted.  With the
client up, the handler merges the truthy update fields, re-extracts
and geocodes the location when needed, appends an audit entry and
writes the row back. -/
def Routes.putDisaster (id : String) (u : UpdateReq) (userHeader : Option String)
    (extractOutcome : Except Unit (Option GeocodingResult))
    (geocodeResult : Option Coords)
    (db : Db (List Disaster)) (mock : List Disaster) (now : Nat) :
    RouteResponse Disaster × Db (List Disaster) × List Disaster :=
  match db with
  | .down =>
    ({ status := 404, success := false, data := none,
       error := some "Disaster not found", message := none }, db, mock)
  | .up rows =>
    match rows.find? (fun d => d.id == id) with
    | none =>
      ({ status := 404, success := false, data := none,
         error := some "Disaster not found", message := none }, db, mock)
    | some existing =>
      let locStep : Except Unit (Option (String × Coords)) :=
        if jsTruthy u.location_name || jsTruthy u.description then
          let step : Except Unit String :=
            if !(jsTruthy u.location_name) && jsTruthy u.description then
              match extractOutcome with
              | .error _ => .error ()
              | .ok (some g) => .ok g.location_name
              | .ok none => .ok (jsOr u.location_name existing.location_name)
            else .ok (jsOr u.location_name existing.location_name)
          match step with
          | .error _ => .error ()
          | .ok finalLocationName =>
            if finalLocationName ≠ existing.location_name then
              match geocodeResult with
              | some c => .ok (some (finalLocationName, c))
              | none => .ok none
            else .ok none
        else .ok none
      match locStep with
      | .error _ =>
        ({ status := 500, success := false, data := none,
           error := some "Internal server error", message := none }, db, mock)
      | .ok locUpdate =>
        let updated : Disaster :=
          { existing with
            title := if jsTruthy u.title then jsOr u.title "" else existing.title
            description :=
              if jsTruthy u.description then jsOr u.description "" else existing.description
            tags := u.tags.getD existing.tags
            location_name :=
              match locUpdate with
              | some (n, _) => n
              | none => existing.location_name
            location :=
              match locUpdate with
              | some (_, c) => some c
              | none => existing.location
            updated_at := now
            audit_trail :=
              existing.audit_trail ++ [⟨"update", jsOr userHeader "anonymous", now, none⟩] }
        ({ status := 200, success := true, data := some updated,
           error := none, message := some "Disaster updated successfully" },
         .up (rows.map (fun r => if r.id == id then updated else r)), mock)

/-- GET /api/resources (routes/resources.ts).  The database path
applies the disaster-id, type, availability and st_dwithin filters and
paginates; the fallback path returns the fixture list via
MockDataService.getResources, which never looks at coordinates or
radius. -/
def Routes.getResourcesList
    (disaster_id rtype available : Option String)
    (lat lng : Option Int) (radius : Nat) (page limit : Nat)
    (withinMeters : Coords → Coords → Nat → Bool)
    (db : Db (List Resource)) (mock : List Resource) :
    ListResponse Resource :=
  match db with
  | .up rows =>
    let idF : Resource → Bool := fun r =>
      match disaster_id with
      | some s => if s == "" then true else r.disaster_id == s
      | none => true
    let typeF : Resource → Bool := fun r =>
      match rtype with
      | some t => if t == "" then true else r.rtype == t
      | none => true
    let availF : Resource → Bool := fun r =>
      match available with
      | some a => r.available == some (a == "true")
      | none => true
    let geoF : Resource → Bool := fun r =>
      match lat, lng with
      | some la, some ln =>
        match r.location with
        | some p => withinMeters p ⟨la, ln⟩ radius
        | none => false
      | _, _ => true
    let filtered := rows.filter (fun r => idF r && typeF r && availF r && geoF r)
    { status := 200, success := true
      data := paginate (sortResByCreatedDesc filtered) page limit
      pagination := some ⟨page, limit, filtered.length, ceilDiv filtered.length limit⟩
      error := none }
  | .down =>
    let result := MockDataService.getResources mock page limit disaster_id
    { status := 200, success := true, data := result.1
      pagination := some ⟨page, limit, result.2, ceilDiv result.2 limit⟩
      error := none }

/-! ## Helper lemmas -/

/-- After an upsert, looking the key up finds exactly the new row. -/
theorem cacheFind_set {V : Type u} (store : CacheStore V) (now : Nat) (key : String)
    (value : V) (ttl : Nat) :
    cacheFind (CacheService.set store now key value ttl) key =
      some ⟨key, value, now + ttl * 1000⟩ := by
  unfold CacheService.set cacheFind
  by_cases h : store.any (fun r => r.key == key)
  · rw [if_pos h]
    induction store with
    | nil => simp at h
    | cons r rest ih =>
      simp only [List.any_cons, Bool.or_eq_true] at h
      simp only [List.map_cons]
      by_cases hr : (r.key == key) = true
      · rw [if_pos hr, List.find?_cons_of_pos _ (by simp)]
      · rw [if_neg hr, List.find?_cons_of_neg _ (by simpa using hr)]
        exact ih (h.resolve_left hr)
  · rw [if_neg h]
    induction store with
    | nil => simp [List.find?]
    | cons r rest ih =>
      simp only [List.any_cons, Bool.or_eq_true, not_or] at h
      rw [List.cons_append, List.find?_cons_of_neg _ (by simpa using h.1)]
      exact ih h.2

/-- A successful key lookup returns a member row with that key. -/
theorem cacheFind_mem {V : Type u} {store : CacheStore V} {key : String} {row : CacheRow V}
    (h : cacheFind store key = some row) : row ∈ store ∧ row.key = key := by
  unfold cacheFind at h
  refine ⟨List.mem_of_find?_eq_some h, ?_⟩
  have := List.find?_some h
  simpa using this

/-- A cache hit returns the value of a member row with that key. -/
theorem CacheService.get_some {V : Type u} {store store' : CacheStore V} {now : Nat}
    {key : String} {v : V}
    (h : CacheService.get store now key = (some v, store')) :
    ∃ row ∈ store, row.key = key ∧ row.value = v := by
  unfold CacheService.get at h
  rcases hf : cacheFind store key with _ | row
  · rw [hf] at h
    simp at h
  · rw [hf] at h
    have h' : (if row.expires_at < now then ((none : Option V), CacheService.del store key)
        else (some row.value, store)) = (some v, store') := h
    by_cases he : row.expires_at < now
    · rw [if_pos he] at h'
      simp at h'
    · rw [if_neg he] at h'
      simp only [Prod.mk.injEq, Option.some.injEq] at h'
      obtain ⟨hmem, hkey⟩ := cacheFind_mem hf
      exact ⟨row, hmem, hkey, h'.1⟩

/-! ## Claim theorems -/

/-- C3 counterexample: with set at time 0 and ttl 1 second the stored
expiry is 1000; a get at exactly the expiry still returns the value,
not null, because the code expires only on `expires_at < now`
(strict).  The claim says the query at or after the expiry returns
null. -/
theorem cache_get_at_expiry_returns_value :
    (0 : Nat) + 1 * 1000 ≤ 1000 ∧
    (CacheService.get (CacheService.set ([] : CacheStore Nat) 0 "k" 42 1) 1000 "k").1 = some 42 ∧
    ¬((CacheService.get (CacheService.set ([] : CacheStore Nat) 0 "k" 42 1) 1000 "k").1 = none) := by
  refine ⟨by decide, by decide, by decide⟩

/-- Evaluation of CacheService.get once the key lookup is known. -/
theorem CacheService.get_eq_of_find {V : Type u} {store : CacheStore V} {key : String}
    {row : CacheRow V} (h : cacheFind store key = some row) (now : Nat) :
    CacheService.get store now key =
      if row.expires_at < now then (none, CacheService.del store key)
      else (some row.value, store) := by
  unfold CacheService.get
  rw [h]

/-- C3 (amended): after CacheService.set(k, v, ttl) at time t0, a get
at any time up to and including the stored expiry t0 + ttl*1000
returns v; a get strictly after the expiry returns null and lazily
deletes the entry. -/
theorem CacheService.get_after_set {V : Type u} (store : CacheStore V) (k : String)
    (v : V) (ttl t0 t : Nat) :
    (t ≤ t0 + ttl * 1000 →
      (CacheService.get (CacheService.set store t0 k v ttl) t k).1 = some v)
    ∧ (t0 + ttl * 1000 < t →
      (CacheService.get (CacheService.set store t0 k v ttl) t k).1 = none
      ∧ ∀ r ∈ (CacheService.get (CacheService.set store t0 k v ttl) t k).2, r.key ≠ k) := by
  have hf := cacheFind_set store t0 k v ttl
  rw [CacheService.get_eq_of_find hf t]
  constructor
  · intro ht
    rw [if_neg (by show ¬(t0 + ttl * 1000 < t); omega)]
  · intro ht
    rw [if_pos (by show t0 + ttl * 1000 < t; omega)]
    refine ⟨rfl, ?_⟩
    intro r hr
    unfold CacheService.del at hr
    have := List.mem_filter.mp hr
    simpa using this.2

/-- C3 witness: the amended theorem at a concrete instance; a get at
time 500 (before expiry 1000) hits, a get at time 2000 (after) misses. -/
theorem cache_get_after_set_instance :
    (500 ≤ 0 + 1 * 1000 ∧
      (CacheService.get (CacheService.set ([] : CacheStore Nat) 0 "k" 42 1) 500 "k").1 = some 42)
    ∧ (0 + 1 * 1000 < 2000 ∧
      (CacheService.get (CacheService.set ([] : CacheStore Nat) 0 "k" 42 1) 2000 "k").1 = none) :=
  ⟨⟨by decide, (CacheService.get_after_set [] "k" 42 1 0 500).1 (by decide)⟩,
   ⟨by decide, ((CacheService.get_after_set [] "k" 42 1 0 2000).2 (by decide)).1⟩⟩

/-- C4: clearExpired keeps exactly the rows whose expiry is at or
after the call time: a row survives the sweep iff it was present and
its expiry is not strictly below now. -/
theorem CacheService.clearExpired_exact {V : Type u} (store : CacheStore V) (now : Nat)
    (r : CacheRow V) :
    r ∈ CacheService.clearExpired store now ↔ r ∈ store ∧ ¬(r.expires_at < now) := by
  unfold CacheService.clearExpired
  simp [List.mem_filter]

/-- C10: BlueskyService.classifyPriority is total with values among
the four labels; an urgent keyword in the lower-cased content wins,
then the high keywords, then the medium keywords, and with no keyword
the default is low. -/
theorem BlueskyService.classifyPriority_cascade (content : String) :
    (BlueskyService.classifyPriority content = .low ∨
      BlueskyService.classifyPriority content = .medium ∨
      BlueskyService.classifyPriority content = .high ∨
      BlueskyService.classifyPriority content = .urgent)
    ∧ (urgentKeyword (toLowerStr content) = true →
        BlueskyService.classifyPriority content = .urgent)
    ∧ (urgentKeyword (toLowerStr content) = false →
        highKeyword (toLowerStr content) = true →
        BlueskyService.classifyPriority content = .high)
    ∧ (urgentKeyword (toLowerStr content) = false →
        highKeyword (toLowerStr content) = false →
        mediumKeyword (toLowerStr content) = true →
        BlueskyService.classifyPriority content = .medium)
    ∧ (urgentKeyword (toLowerStr content) = false →
        highKeyword (toLowerStr content) = false →
        mediumKeyword (toLowerStr content) = false →
        BlueskyService.classifyPriority content = .low) := by
  unfold BlueskyService.classifyPriority
  by_cases hu : urgentKeyword (toLowerStr content) <;>
    by_cases hh : highKeyword (toLowerStr content) <;>
      by_cases hm : mediumKeyword (toLowerStr content) <;>
        simp [hu, hh, hm]

/-- C10 witness: a content with an urgent keyword in mixed case is
classified urgent; a content with no keyword is classified low. -/
theorem classifyPriority_instances :
    (urgentKeyword (toLowerStr "Send SOS now") = true ∧
      BlueskyService.classifyPriority "Send SOS now" = .urgent)
    ∧ (urgentKeyword (toLowerStr "all calm here") = false ∧
        highKeyword (toLowerStr "all calm here") = false ∧
        mediumKeyword (toLowerStr "all calm here") = false ∧
        BlueskyService.classifyPriority "all calm here" = .low) :=
  ⟨⟨by decide, (BlueskyService.classifyPriority_cascade "Send SOS now").2.1 (by decide)⟩,
   ⟨by decide, by decide, by decide,
    (BlueskyService.classifyPriority_cascade "all calm here").2.2.2.2
      (by decide) (by decide) (by decide)⟩⟩

/-- C1: the aggregate record has exactly the six list fields, each
equal to the fulfilled value of its own source (the empty list when
that source rejected), and each field is unchanged under arbitrary
changes of the other five outcomes. -/
theorem RealTimeDataService.getRealTimeDisasterData_isolation
    (d d' : Settled (List Disaster)) (sm sm' : Settled (List SocialMediaPost))
    (w w' : Settled (List WeatherAlert)) (e e' : Settled (List EmergencyAlert))
    (r r' : Settled (List Resource)) (rp rp' : Settled (List Report)) :
    RealTimeDataService.getRealTimeDisasterData d sm w e r rp =
      { disasters := d.valueOrNil, socialMedia := sm.valueOrNil, weather := w.valueOrNil,
        emergencyAlerts := e.valueOrNil, resources := r.valueOrNil, reports := rp.valueOrNil }
    ∧ (∀ v : List Disaster, (Settled.fulfilled v).valueOrNil = v)
    ∧ (Settled.valueOrNil (α := Disaster) .rejected = [])
    ∧ (RealTimeDataService.getRealTimeDisasterData d sm w e r rp).disasters =
        (RealTimeDataService.getRealTimeDisasterData d sm' w' e' r' rp').disasters
    ∧ (RealTimeDataService.getRealTimeDisasterData d sm w e r rp).socialMedia =
        (RealTimeDataService.getRealTimeDisasterData d' sm w' e' r' rp').socialMedia
    ∧ (RealTimeDataService.getRealTimeDisasterData d sm w e r rp).weather =
        (RealTimeDataService.getRealTimeDisasterData d' sm' w e' r' rp').weather
    ∧ (RealTimeDataService.getRealTimeDisasterData d sm w e r rp).emergencyAlerts =
        (RealTimeDataService.getRealTimeDisasterData d' sm' w' e r' rp').emergencyAlerts
    ∧ (RealTimeDataService.getRealTimeDisasterData d sm w e r rp).resources =
        (RealTimeDataService.getRealTimeDisasterData d' sm' w' e' r rp').resources
    ∧ (RealTimeDataService.getRealTimeDisasterData d sm w e r rp).reports =
        (RealTimeDataService.getRealTimeDisasterData d' sm' w' e' r' rp).reports := by
  refine ⟨?_, fun _ => rfl, rfl, rfl, rfl, rfl, rfl, rfl, rfl⟩
  cases d <;> cases sm <;> cases w <;> cases e <;> cases r <;> cases rp <;> rfl

/-- C7 counterexample: the response text `fake` has no JSON block, so
it fails to parse as expected, yet verifyImage does not return the
fail-open default: the keyword fallback branch returns
is_authentic = false. -/
theorem verifyImage_heuristic_not_fail_open :
    jsonMatch "fake" = none ∧
    (GeminiService.verifyImage (fun _ => none) none (.responds "fake")).is_authentic = false := by
  refine ⟨by decide, by decide⟩

/-- C7 (amended): a thrown upstream call gives the fixed fail-open
default with confidence 30; a response whose JSON block fails
JSON.parse gives the fail-open default with confidence 50 (a response
with no JSON block instead goes through a keyword heuristic that can
mark the image inauthentic); classifySocialMediaPriority returns
medium on a thrown call and on any response outside the four labels. -/
theorem GeminiService.fallback_amended
    (parseJson : String → Option ImageVerificationResult) (t u : String)
    (hp : ∀ b, parseJson b = none)
    (hb : (jsonMatch t).isSome = true)
    (hu : parseValidPriority (toLowerStr (trimStr u)) = none) :
    GeminiService.verifyImage parseJson none .throws =
      ⟨true, 30, "Unable to verify image due to technical error", []⟩
    ∧ GeminiService.verifyImage parseJson none (.responds t) = ⟨true, 50, t, []⟩
    ∧ GeminiService.classifySocialMediaPriority none .throws = .medium
    ∧ GeminiService.classifySocialMediaPriority none (.responds u) = .medium := by
  obtain ⟨block, hm⟩ := Option.isSome_iff_exists.mp hb
  refine ⟨rfl, ?_, rfl, ?_⟩
  · simp only [GeminiService.verifyImage, hm, hp]
  · simp only [GeminiService.classifySocialMediaPriority, hu]

/-- C7 witness: the amended theorem at a trivial JSON parser that
always fails, the two-brace response and an unclassifiable label. -/
theorem gemini_fallback_instance :
    (jsonMatch "\x7b\x7d").isSome = true ∧
    parseValidPriority (toLowerStr (trimStr "whatever")) = none ∧
    (GeminiService.verifyImage (fun _ => none) none .throws =
        ⟨true, 30, "Unable to verify image due to technical error", []⟩
      ∧ GeminiService.verifyImage (fun _ => none) none (.responds "\x7b\x7d") =
          ⟨true, 50, "\x7b\x7d", []⟩
      ∧ GeminiService.classifySocialMediaPriority none .throws = .medium
      ∧ GeminiService.classifySocialMediaPriority none (.responds "whatever") = .medium) :=
  ⟨by decide, by decide,
    GeminiService.fallback_amended (fun _ => none) "\x7b\x7d" "whatever"
      (fun _ => rfl) (by decide) (by decide)⟩

/-- C2 counterexample: requesting the disaster id `all` collides with
the cache key of the unfiltered query.  An earlier unfiltered call
stores the unfiltered list under `realtime_disasters:all`; the
filtered call for the id `all` then returns that cached list, whose
entry has id `bluesky-99`, different from the requested id. -/
theorem getRealTimeDisasters_all_key_collision :
    (RealTimeDataService.getRealTimeDisasters (some "all") 1000
        (RealTimeDataService.getRealTimeDisasters none 0 []
          (.fulfilled [demoDisaster]) .rejected .rejected).2
        .rejected .rejected .rejected).1 = [demoDisaster]
    ∧ demoDisaster.id ≠ "all" := by
  refine ⟨by decide, by decide⟩

/-- C2 (amended): for a requested id that is non-empty and different
from the reserved cache suffix `all`, and caches whose rows under the
real-time prefixes were written by these functions (the cache
invariants), every disaster returned by getRealTimeDisasters carries
the requested id, every post returned by getRealTimeSocialMedia
carries it as its disaster_id, and every resource returned by
getRealTimeResources carries it as its disaster_id. -/
theorem RealTimeDataService.id_correlation (d : String) (now : Nat)
    (hne : d ≠ "") (hall : d ≠ "all")
    (dcache : CacheStore (List Disaster)) (hdc : disastersCacheInv dcache)
    (bluesky emergency weather : Settled (List Disaster))
    (scache : CacheStore (List SocialMediaPost)) (hsc : socialCacheInv scache)
    (blueskyPosts officialPosts : Settled (List SocialMediaPost))
    (rcache : CacheStore (List Resource)) (hrc : resourcesCacheInv rcache)
    (redCross : Settled (List RedCrossFeature)) :
    (∀ x ∈ (RealTimeDataService.getRealTimeDisasters (some d) now dcache
        bluesky emergency weather).1, x.id = d)
    ∧ (∀ p ∈ (RealTimeDataService.getRealTimeSocialMedia (some d) now scache
        blueskyPosts officialPosts).1, p.disaster_id = some d)
    ∧ (∀ r ∈ (RealTimeDataService.getRealTimeResources (some d) now rcache
        redCross).1, r.disaster_id = d) := by
  have hkeyEq : keyOrAll (some d) = d := by
    have hstep : keyOrAll (some d) = if (d == "") = true then "all" else d := rfl
    rw [hstep, if_neg (by simpa using hne)]
  have hdEq : (d == "") = false := by simpa using hne
  refine ⟨?_, ?_, ?_⟩
  · rcases hg : CacheService.get dcache now ("realtime_disasters:" ++ keyOrAll (some d))
      with ⟨val, cache1⟩
    rcases val with _ | v
    · simp only [RealTimeDataService.getRealTimeDisasters, hg, hdEq]
      intro x hx
      rw [if_neg (by simp [hdEq])] at hx
      have := List.mem_filter.mp hx
      simpa using this.2
    · simp only [RealTimeDataService.getRealTimeDisasters, hg]
      obtain ⟨row, hmem, hkeyr, hval⟩ := CacheService.get_some hg
      rw [hkeyEq] at hkeyr
      intro x hx
      apply hdc row hmem d hkeyr hall x
      rw [hval]
      exact hx
  · rcases hg : CacheService.get scache now ("realtime_social:" ++ keyOrAll (some d))
      with ⟨val, cache1⟩
    rcases val with _ | v
    · simp only [RealTimeDataService.getRealTimeSocialMedia, hg, hdEq]
      intro p hp
      rw [if_neg (by simp [hdEq])] at hp
      have := List.mem_filter.mp hp
      simpa using this.2
    · simp only [RealTimeDataService.getRealTimeSocialMedia, hg]
      obtain ⟨row, hmem, hkeyr, hval⟩ := CacheService.get_some hg
      rw [hkeyEq] at hkeyr
      intro p hp
      apply hsc row hmem d hkeyr hall p
      rw [hval]
      exact hp
  · rcases hg : CacheService.get rcache now ("realtime_resources:" ++ keyOrAll (some d))
      with ⟨val, cache1⟩
    rcases val with _ | v
    · simp only [RealTimeDataService.getRealTimeResources, hg]
      intro r hr
      rcases redCross with fs | _
      · simp only [Settled.fulfilled.sizeOf_spec] at hr
        obtain ⟨f, hf, hfr⟩ := List.mem_map.mp hr
        rw [← hfr]
        unfold redCrossToResource jsOr
        simp [hdEq]
      · simp at hr
    · simp only [RealTimeDataService.getRealTimeResources, hg]
      obtain ⟨row, hmem, hkeyr, hval⟩ := CacheService.get_some hg
      rw [hkeyEq] at hkeyr
      intro r hr
      apply hrc row hmem d hkeyr hall r
      rw [hval]
      exact hr

/-- C2 witness: the amended theorem on cold caches for the id
`disaster-1`, with one matching Bluesky disaster and one Red Cross
feature. -/
theorem realTime_id_correlation_instance :
    (∀ x ∈ (RealTimeDataService.getRealTimeDisasters (some "disaster-1") 0 []
        (.fulfilled [⟨"disaster-1", "T", "L", some ⟨0, 0⟩, "D", [], "o", 0, 0, []⟩])
        .rejected .rejected).1, x.id = "disaster-1")
    ∧ (∀ p ∈ (RealTimeDataService.getRealTimeSocialMedia (some "disaster-1") 0 []
        (.fulfilled [⟨"post-1", "bluesky", "u", "flood", 0, some "disaster-1", .urgent⟩])
        .rejected).1, p.disaster_id = some "disaster-1")
    ∧ (∀ r ∈ (RealTimeDataService.getRealTimeResources (some "disaster-1") 0 []
        (.fulfilled [⟨7, none, none, none, none, none⟩])).1, r.disaster_id = "disaster-1") :=
  RealTimeDataService.id_correlation "disaster-1" 0 (by decide) (by decide)
    [] (by intro row h; exact absurd h (List.not_mem_nil row))
    (.fulfilled [⟨"disaster-1", "T", "L", some ⟨0, 0⟩, "D", [], "o", 0, 0, []⟩])
    .rejected .rejected
    [] (by intro row h; exact absurd h (List.not_mem_nil row))
    (.fulfilled [⟨"post-1", "bluesky", "u", "flood", 0, some "disaster-1", .urgent⟩])
    .rejected
    [] (by intro row h; exact absurd h (List.not_mem_nil row))
    (.fulfilled [⟨7, none, none, none, none, none⟩])

/-- C6: a create request whose title or description is falsy (missing
or empty) is rejected with status 400, success false and the
structured error message, and neither the database nor the mock
fixture store changes. -/
theorem Routes.postDisaster_validation
    (title location_name description : Option String) (tags : Option (List String))
    (userHeader : Option String) (extractOutcome : Except Unit (Option GeocodingResult))
    (geocodeResult : Option Coords) (db : Db (List Disaster)) (dbNewId : String)
    (mock : List Disaster) (now : Nat)
    (h : jsTruthy title = false ∨ jsTruthy description = false) :
    (Routes.postDisaster title location_name description tags userHeader extractOutcome
        geocodeResult db dbNewId mock now).1.status = 400
    ∧ (Routes.postDisaster title location_name description tags userHeader extractOutcome
        geocodeResult db dbNewId mock now).1.success = false
    ∧ (Routes.postDisaster title location_name description tags userHeader extractOutcome
        geocodeResult db dbNewId mock now).1.error =
        some "Title and description are required"
    ∧ (Routes.postDisaster title location_name description tags userHeader extractOutcome
        geocodeResult db dbNewId mock now).2.1 = db
    ∧ (Routes.postDisaster title location_name description tags userHeader extractOutcome
        geocodeResult db dbNewId mock now).2.2 = mock := by
  have hcond : (!(jsTruthy title) || !(jsTruthy description)) = true := by
    rcases h with h | h <;> simp [h]
  unfold Routes.postDisaster
  rw [if_pos hcond]
  exact ⟨rfl, rfl, rfl, rfl, rfl⟩

/-- C6 witness: a request with a missing title and non-empty
description is rejected and the stores survive unchanged. -/
theorem postDisaster_validation_instance :
    jsTruthy (none : Option String) = false ∧
    ((Routes.postDisaster none none (some "desc") none none (.ok none) none
        (.up []) "id-1" [] 0).1.status = 400
      ∧ (Routes.postDisaster none none (some "desc") none none (.ok none) none
          (.up []) "id-1" [] 0).1.success = false
      ∧ (Routes.postDisaster none none (some "desc") none none (.ok none) none
          (.up []) "id-1" [] 0).1.error = some "Title and description are required"
      ∧ (Routes.postDisaster none none (some "desc") none none (.ok none) none
          (.up []) "id-1" [] 0).2.1 = .up []
      ∧ (Routes.postDisaster none none (some "desc") none none (.ok none) none
          (.up []) "id-1" [] 0).2.2 = []) :=
  ⟨rfl, Routes.postDisaster_validation none none (some "desc") none none (.ok none) none
    (.up []) "id-1" [] 0 (Or.inl rfl)⟩

/-- C5 counterexample: with the database client down, an update does
not succeed against the fixture store; the handler answers 404 with
success false. -/
theorem putDisaster_down_no_fallback :
    (Routes.putDisaster "disaster-1" ⟨none, none, none, none⟩ none (.ok none) none
        .down [] 0).1.status = 404
    ∧ (Routes.putDisaster "disaster-1" ⟨none, none, none, none⟩ none (.ok none) none
        .down [] 0).1.success = false := ⟨rfl, rfl⟩

/-- C5 (amended): with the database client down, a valid create and a
list both still succeed against the in-memory fixture store with
well-formed envelopes (201 with the record appended, 200 with the
paginated fixtures); the update route has no fallback and answers 404
with success false, leaving both stores untouched. -/
theorem Routes.crud_fallback
    (title location_name description : Option String) (tags : Option (List String))
    (userHeader : Option String) (extractOutcome : Except Unit (Option GeocodingResult))
    (geocodeResult : Option Coords) (dbNewId : String) (mockC : List Disaster) (now : Nat)
    (page limit : Nat) (tag search owner_id : Option String) (lat lng : Option Int)
    (radius : Nat) (ilike : String → String → Bool)
    (withinMeters : Coords → Coords → Nat → Bool) (mockL : List Disaster)
    (id : String) (u : UpdateReq) (mockU : List Disaster)
    (hT : jsTruthy title = true) (hD : jsTruthy description = true)
    (hE : extractOutcome ≠ .error ()) :
    ((Routes.postDisaster title location_name description tags userHeader extractOutcome
        geocodeResult .down dbNewId mockC now).1.status = 201
      ∧ (Routes.postDisaster title location_name description tags userHeader extractOutcome
          geocodeResult .down dbNewId mockC now).1.success = true
      ∧ (Routes.postDisaster title location_name description tags userHeader extractOutcome
          geocodeResult .down dbNewId mockC now).2.2.length = mockC.length + 1)
    ∧ Routes.getDisastersList page limit tag search owner_id lat lng radius ilike
        withinMeters .down mockL =
        { status := 200, success := true, data := paginate mockL page limit,
          pagination := some ⟨page, limit, mockL.length, ceilDiv mockL.length limit⟩,
          error := none }
    ∧ ((Routes.putDisaster id u userHeader extractOutcome geocodeResult .down mockU
          now).1.status = 404
      ∧ (Routes.putDisaster id u userHeader extractOutcome geocodeResult .down mockU
          now).1.success = false
      ∧ (Routes.putDisaster id u userHeader extractOutcome geocodeResult .down mockU
          now).2.1 = Db.down
      ∧ (Routes.putDisaster id u userHeader extractOutcome geocodeResult .down mockU
          now).2.2 = mockU) := by
  refine ⟨?_, rfl, rfl, rfl, rfl, rfl⟩
  rcases extractOutcome with e | r
  · cases e
    exact absurd rfl hE
  · by_cases hL : jsTruthy location_name = true
    · refine ⟨?_, ?_, ?_⟩ <;>
        simp [Routes.postDisaster, hT, hD, hL, MockDataService.createDisaster]
    · have hL' : jsTruthy location_name = false := by simpa using hL
      rcases r with _ | g
      · refine ⟨?_, ?_, ?_⟩ <;>
          simp [Routes.postDisaster, hT, hD, hL', MockDataService.createDisaster]
      · refine ⟨?_, ?_, ?_⟩ <;>
          simp [Routes.postDisaster, hT, hD, hL', MockDataService.createDisaster]

/-- C5 witness: the amended theorem at a concrete valid create, a
concrete list call and a concrete update, all against a down client. -/
theorem crud_fallback_instance :
    jsTruthy (some "Test Flood") = true ∧
    ((Routes.postDisaster (some "Test Flood") none (some "desc") none none (.ok none) none
        .down "id-1" [] 7).1.status = 201
      ∧ (Routes.postDisaster (some "Test Flood") none (some "desc") none none (.ok none) none
          .down "id-1" [] 7).1.success = true
      ∧ (Routes.postDisaster (some "Test Flood") none (some "desc") none none (.ok none) none
          .down "id-1" [] 7).2.2.length = List.length ([] : List Disaster) + 1)
    ∧ Routes.getDisastersList 1 10 none none none none none 10000 (fun _ _ => false)
        (fun _ _ _ => false) .down [demoDisaster] =
        { status := 200, success := true, data := paginate [demoDisaster] 1 10,
          pagination := some ⟨1, 10, 1, ceilDiv 1 10⟩, error := none }
    ∧ ((Routes.putDisaster "d1" ⟨none, none, none, none⟩ none (.ok none) none .down
          [demoDisaster] 7).1.status = 404
      ∧ (Routes.putDisaster "d1" ⟨none, none, none, none⟩ none (.ok none) none .down
          [demoDisaster] 7).1.success = false
      ∧ (Routes.putDisaster "d1" ⟨none, none, none, none⟩ none (.ok none) none .down
          [demoDisaster] 7).2.1 = Db.down
      ∧ (Routes.putDisaster "d1" ⟨none, none, none, none⟩ none (.ok none) none .down
          [demoDisaster] 7).2.2 = [demoDisaster]) :=
  ⟨rfl, Routes.crud_fallback (some "Test Flood") none (some "desc") none none (.ok none)
    none "id-1" [] 7 1 10 none none none none none 10000 (fun _ _ => false)
    (fun _ _ _ => false) [demoDisaster] "d1" ⟨none, none, none, none⟩ [demoDisaster]
    rfl rfl (by simp)⟩

/-- The location-name default of the create handler (the final name
when truthy, else the literal Unknown Location) is never the empty
string. -/
theorem jsOr_unknown_ne_empty (x : Option String) : jsOr x "Unknown Location" ≠ "" := by
  rcases x with _ | s
  · show "Unknown Location" ≠ ""
    decide
  · show (if (s == "") = true then "Unknown Location" else s) ≠ ""
    by_cases hs : (s == "") = true
    · rw [if_pos hs]
      decide
    · rw [if_neg hs]
      simpa using hs

/-- C8: a create with non-empty title and description and no
location_name that answers 201 carries a non-empty location_name:
the name extracted by the AI path run through the Unknown Location
default, or the literal Unknown Location when extraction yields
nothing. -/
theorem Routes.postDisaster_location_name
    (title description : Option String) (tags : Option (List String))
    (userHeader : Option String) (extractOutcome : Except Unit (Option GeocodingResult))
    (geocodeResult : Option Coords) (db : Db (List Disaster)) (dbNewId : String)
    (mock : List Disaster) (now : Nat)
    (hT : jsTruthy title = true) (hD : jsTruthy description = true) :
    ∀ dd, (Routes.postDisaster title none description tags userHeader extractOutcome
        geocodeResult db dbNewId mock now).1.status = 201 →
      (Routes.postDisaster title none description tags userHeader extractOutcome
        geocodeResult db dbNewId mock now).1.data = some dd →
      dd.location_name ≠ ""
      ∧ (∀ g, extractOutcome = .ok (some g) →
          dd.location_name = jsOr (some g.location_name) "Unknown Location")
      ∧ (extractOutcome = .ok none → dd.location_name = "Unknown Location") := by
  rcases extractOutcome with e | r
  · cases e
    intro dd h201 hdd
    simp [Routes.postDisaster, hT, hD, show jsTruthy none = false from rfl] at h201
  · rcases r with _ | g
    · rcases db with rows | _
      · intro dd h201 hdd
        simp [Routes.postDisaster, hT, hD, show jsTruthy none = false from rfl] at hdd
        subst hdd
        refine ⟨jsOr_unknown_ne_empty none, ?_, fun _ => rfl⟩
        intro g' hg'
        simp at hg'
      · intro dd h201 hdd
        simp [Routes.postDisaster, hT, hD, show jsTruthy none = false from rfl, MockDataService.createDisaster] at hdd
        subst hdd
        refine ⟨jsOr_unknown_ne_empty none, ?_, fun _ => rfl⟩
        intro g' hg'
        simp at hg'
    · rcases db with rows | _
      · intro dd h201 hdd
        simp [Routes.postDisaster, hT, hD, show jsTruthy none = false from rfl] at hdd
        subst hdd
        refine ⟨jsOr_unknown_ne_empty (some g.location_name), ?_, ?_⟩
        · intro g' hg'
          simp only [Except.ok.injEq, Option.some.injEq] at hg'
          subst hg'
          rfl
        · intro hcon
          simp at hcon
      · intro dd h201 hdd
        simp [Routes.postDisaster, hT, hD, show jsTruthy none = false from rfl, MockDataService.createDisaster] at hdd
        subst hdd
        refine ⟨jsOr_unknown_ne_empty (some g.location_name), ?_, ?_⟩
        · intro g' hg'
          simp only [Except.ok.injEq, Option.some.injEq] at hg'
          subst hg'
          rfl
        · intro hcon
          simp at hcon

/-- C8 witness: the scenario create against a down client, with the
extractor returning `Main St` for the description. -/
theorem postDisaster_location_name_instance :
    jsTruthy (some "Test Flood") = true ∧
    jsTruthy (some "River overflow near Main St") = true ∧
    (∀ dd, (Routes.postDisaster (some "Test Flood") none
        (some "River overflow near Main St") none none
        (.ok (some ⟨"Main St", 0, 0, "Main St"⟩)) none .down "id-1" [] 3).1.status = 201 →
      (Routes.postDisaster (some "Test Flood") none
        (some "River overflow near Main St") none none
        (.ok (some ⟨"Main St", 0, 0, "Main St"⟩)) none .down "id-1" [] 3).1.data = some dd →
      dd.location_name ≠ ""
      ∧ (∀ g, (Except.ok (some ⟨"Main St", 0, 0, "Main St"⟩) :
            Except Unit (Option GeocodingResult)) = .ok (some g) →
          dd.location_name = jsOr (some g.location_name) "Unknown Location")
      ∧ ((Except.ok (some ⟨"Main St", 0, 0, "Main St"⟩) :
            Except Unit (Option GeocodingResult)) = .ok none →
          dd.location_name = "Unknown Location")) :=
  ⟨rfl, rfl,
    Routes.postDisaster_location_name (some "Test Flood")
      (some "River overflow near Main St") none none
      (.ok (some ⟨"Main St", 0, 0, "Main St"⟩)) none .down "id-1" [] 3 rfl rfl⟩

/-- Membership is preserved by slicing a page. -/
theorem mem_paginate {α : Type} {x : α} {l : List α} {page limit : Nat}
    (h : x ∈ paginate l page limit) : x ∈ l := by
  unfold paginate at h
  exact List.drop_subset _ _ (List.take_subset _ _ h)

/-- Membership through the descending-creation insertion. -/
theorem mem_insertResByCreatedDesc (r x : Resource) (l : List Resource) :
    x ∈ insertResByCreatedDesc r l ↔ x = r ∨ x ∈ l := by
  induction l with
  | nil => simp [insertResByCreatedDesc]
  | cons a as ih =>
    unfold insertResByCreatedDesc
    by_cases h : a.created_at ≤ r.created_at
    · rw [if_pos h]
      simp
    · rw [if_neg h]
      simp [ih]
      tauto
  
/-- The descending-creation sort keeps exactly the members. -/
theorem mem_sortResByCreatedDesc (x : Resource) (l : List Resource) :
    x ∈ sortResByCreatedDesc l ↔ x ∈ l := by
  unfold sortResByCreatedDesc
  induction l with
  | nil => simp
  | cons a as ih => simp [List.foldr_cons, mem_insertResByCreatedDesc, ih]

/-- C9: with lat and lng present, the database-backed path returns
only resources whose stored point satisfies the st_dwithin predicate
for the given radius, while the fallback path returns the paginated
fixture list from MockDataService.getResources, unchanged under any
distance predicate or radius — the documented divergence. -/
theorem Routes.getResourcesList_geo_divergence
    (disaster_id rtype available : Option String) (lat lng : Int)
    (radius radiusB page limit : Nat)
    (withinMeters withinMetersB : Coords → Coords → Nat → Bool)
    (mock : List Resource) :
    (∀ rows : List Resource,
      ∀ r ∈ (Routes.getResourcesList disaster_id rtype available (some lat) (some lng)
          radius page limit withinMeters (.up rows) mock).data,
        ∃ p, r.location = some p ∧ withinMeters p ⟨lat, lng⟩ radius = true)
    ∧ Routes.getResourcesList disaster_id rtype available (some lat) (some lng) radius
        page limit withinMeters .down mock =
        { status := 200, success := true,
          data := (MockDataService.getResources mock page limit disaster_id).1,
          pagination := some ⟨page, limit,
            (MockDataService.getResources mock page limit disaster_id).2,
            ceilDiv (MockDataService.getResources mock page limit disaster_id).2 limit⟩,
          error := none }
    ∧ Routes.getResourcesList disaster_id rtype available (some lat) (some lng) radius
        page limit withinMeters .down mock =
      Routes.getResourcesList disaster_id rtype available (some lat) (some lng) radiusB
        page limit withinMetersB .down mock := by
  refine ⟨?_, rfl, rfl⟩
  intro rows r hr
  simp only [Routes.getResourcesList] at hr
  have h2 := mem_paginate hr
  have h3 := (mem_sortResByCreatedDesc r _).mp h2
  have h4 := (List.mem_filter.mp h3).2
  simp only [Bool.and_eq_true] at h4
  have hgeo := h4.2
  rcases hloc : r.location with _ | p
  · rw [hloc] at hgeo
    simp at hgeo
  · rw [hloc] at hgeo
    exact ⟨p, rfl, hgeo⟩

/-- C9 witness: a database row inside the radius is returned by the
database path; the fallback path on a down client returns the
paginated fixtures for two different predicates alike. -/
theorem getResourcesList_geo_instance :
    (∃ p, (⟨"r1", "d1", "Shelter", "LES", some ⟨40, -74⟩, "shelter", none, some true, 0⟩ :
        Resource).location = some p ∧
      (fun (_ : Coords) (_ : Coords) (_ : Nat) => true) p ⟨40, -74⟩ 5000 = true)
    ∧ Routes.getResourcesList none none none (some 40) (some (-74)) 5000 1 20
        (fun _ _ _ => true) .down [] =
      Routes.getResourcesList none none none (some 40) (some (-74)) 9 1 20
        (fun _ _ _ => false) .down [] :=
  ⟨(Routes.getResourcesList_geo_divergence none none none 40 (-74) 5000 9 1 20
      (fun _ _ _ => true) (fun _ _ _ => false) []).1
      [⟨"r1", "d1", "Shelter", "LES", some ⟨40, -74⟩, "shelter", none, some true, 0⟩]
      ⟨"r1", "d1", "Shelter", "LES", some ⟨40, -74⟩, "shelter", none, some true, 0⟩
      (by decide),
    (Routes.getResourcesList_geo_divergence none none none 40 (-74) 5000 9 1 20
      (fun _ _ _ => true) (fun _ _ _ => false) []).2.2⟩
